import Mathlib

/-!
Verification of the librvth bank-table write path (`rvth_p.c`), the
writability gate (`rvth_make_writable`), the bulk zero scanner
(`rvth_is_block_empty`) and the plain-reader window policy
(`reader_plain_open`), as a shallow embedding in Lean 4.

Machine integers are modelled as `Nat`/`Int`: byte values live in `Nat`
(on-disk bytes are produced `% 256`), error codes live in `Int`
(negative = POSIX errno, nonnegative = RvtH domain codes, matching the
convention documented on `rvth_make_writable` / `rvth_write_BankEntry`:
"If negative, POSIX error; otherwise, see RvtH_Errors.").
-/

set_option autoImplicit false

set_option maxRecDepth 8000

namespace RvtHTool

/-! ## Error codes -/

/-- POSIX `EINVAL` (errno.h). -/
def EINVAL : Int := 22

/-- POSIX `ERANGE` (errno.h). -/
def ERANGE : Int := 34

/-- POSIX `EIO` (errno.h). -/
def EIO : Int := 5

/-- Modelled from the spec: the RvtH domain error codes (`RvtH_Errors`,
declared in a header that is not part of the given sources). The spec and
the convention comment on `rvth_write_BankEntry` only require that they
are a closed set of distinct nonnegative codes, disjoint from the negative
POSIX errno encoding; the concrete numeric values here are representative. -/
def RVTH_ERROR_NOT_HDD_IMAGE : Int := 3

/-- Modelled from the spec: domain error for a bank whose type is unknown. -/
def RVTH_ERROR_BANK_UNKNOWN : Int := 4

/-- Modelled from the spec: domain error for the second bank of a dual-layer image. -/
def RVTH_ERROR_BANK_DL_2 : Int := 5

/-- Modelled from the spec: domain error for writability escalation on a non-device store. -/
def RVTH_ERROR_NOT_A_DEVICE : Int := 6

/-- The closed set of domain error codes reachable from `rvth_write_BankEntry`
(spec section 6: not-HDD-image, unknown-bank-type, dual-layer-second-bank,
not-a-device). -/
def rvthDomainErrors : List Int :=
  [RVTH_ERROR_NOT_HDD_IMAGE, RVTH_ERROR_BANK_UNKNOWN,
   RVTH_ERROR_BANK_DL_2, RVTH_ERROR_NOT_A_DEVICE]

/-! ## Backing store (`RefFile`) -/

/-- Modelled from the spec: the backing-store handle (`RefFile`, whose
implementation `ref_file.c` is not part of the given sources; spec section 6
"Backing Store boundary"). `data` is the byte content at each absolute
offset, `pos` the current file position. `mwResult` is the outcome of the
platform-dependent writability escalation (`0` on success, a negative POSIX
code on failure); `seekFails`/`writeFails` with their errno values model
I/O failures of `ref_seeko`/`ref_write`. -/
structure RefFile where
  data : Nat → Nat
  size : Nat
  pos : Nat
  writable : Bool
  is_device : Bool
  mwResult : Int
  seekFails : Bool
  seekErrno : Nat
  writeFails : Bool
  writeErrno : Nat

/-- Modelled from the spec: query the current writability of the store. -/
def ref_is_writable (f : RefFile) : Bool := f.writable

/-- Modelled from the spec: device-vs-file classification of the store. -/
def ref_is_device (f : RefFile) : Bool := f.is_device

/-- Modelled from the spec: attempt the platform-dependent writability
escalation; on success the store becomes writable, on failure it is
unchanged and the (negative POSIX) outcome is returned. -/
def ref_make_writable (f : RefFile) : Int × RefFile :=
  if f.mwResult = 0 then (0, { f with writable := true }) else (f.mwResult, f)

/-- Modelled from the spec: positioned write of a byte list at the current
file position (`ref_write` with element size 1). -/
def ref_write_bytes (f : RefFile) (bytes : List Nat) : RefFile :=
  { f with
    data := fun off =>
      if f.pos ≤ off ∧ off < f.pos + bytes.length then bytes.getD (off - f.pos) 0
      else f.data off
    pos := f.pos + bytes.length }

/-! ## Bank types and the RVT-H handle -/

/-- Bank types, from `rvth_enums.h` (`RvtH_BankType_e`). -/
inductive RvtH_BankType
  | Empty
  | Unknown
  | GCN
  | Wii_SL
  | Wii_DL
  | Wii_DL_Bank2
deriving DecidableEq

/-- Image types, from `rvth_enums.h` (`RvtH_ImageType_e`). -/
inductive RvtH_ImageType
  | Unknown
  | HDD_Reader
  | HDD_Image
  | GCM
  | GCM_SDK
deriving DecidableEq

/-- In-memory bank entry (`RvtH_BankEntry`): the fields read by
`rvth_write_BankEntry` (type, deletion flag, LBA start/length). -/
structure RvtH_BankEntry where
  type : RvtH_BankType
  is_deleted : Bool
  lba_start : Nat
  lba_len : Nat
deriving DecidableEq

/-- The RVT-H handle: backing store, image classification, bank count and
the in-memory bank entries. -/
structure RvtH where
  f_img : RefFile
  imageType : RvtH_ImageType
  bank_count : Nat
  entries : List RvtH_BankEntry

/-- Modelled from the spec: `rvth_is_hdd` (declared in `rvth_p.h`, not part
of the given sources). Per `rvth_enums.h`, the HDD-class image types are
`HDD_Reader` and `HDD_Image`; everything else is a standalone image. -/
def rvth_is_hdd (rvth : RvtH) : Bool :=
  match rvth.imageType with
  | RvtH_ImageType.HDD_Reader => true
  | RvtH_ImageType.HDD_Image => true
  | _ => false

/-- The in-memory bank entry at a given index (`rvth->entries[bank]`);
out-of-range access never happens on the paths that use this. -/
def rvth_entry_at (rvth : RvtH) (bank : Nat) : RvtH_BankEntry :=
  rvth.entries.getD bank ⟨RvtH_BankType.Empty, false, 0, 0⟩

/-! ## rvth_make_writable (rvth_p.c lines 36-55) -/

/-- Embedding of `rvth_make_writable`: succeed at once if the store is
already writable; otherwise a non-device store fails with
`RVTH_ERROR_NOT_A_DEVICE`; otherwise attempt the escalation and return its
outcome. -/
def rvth_make_writable (rvth : RvtH) : Int × RvtH :=
  if ref_is_writable rvth.f_img then (0, rvth)
  else if ¬ ref_is_device rvth.f_img then (RVTH_ERROR_NOT_A_DEVICE, rvth)
  else
    let r := ref_make_writable rvth.f_img
    (r.1, { rvth with f_img := r.2 })

/-! ## Bulk zero scanner (rvth_p.c lines 63-86) -/

/-- One 64-bit word of the block, read as eight consecutive bytes combined
by shifts and OR (the byte order is irrelevant for the zero test). -/
def word64 (block : List Nat) (j : Nat) : Nat :=
  block.getD (8 * j) 0 |||
  block.getD (8 * j + 1) 0 <<< 8 |||
  block.getD (8 * j + 2) 0 <<< 16 |||
  block.getD (8 * j + 3) 0 <<< 24 |||
  block.getD (8 * j + 4) 0 <<< 32 |||
  block.getD (8 * j + 5) 0 <<< 40 |||
  block.getD (8 * j + 6) 0 <<< 48 |||
  block.getD (8 * j + 7) 0 <<< 56

/-- One loop iteration of `rvth_is_block_empty`: the OR of eight
consecutive 64-bit words (one 64-byte group). -/
def group64 (block : List Nat) (g : Nat) : Nat :=
  word64 block (8 * g) |||
  word64 block (8 * g + 1) |||
  word64 block (8 * g + 2) |||
  word64 block (8 * g + 3) |||
  word64 block (8 * g + 4) |||
  word64 block (8 * g + 5) |||
  word64 block (8 * g + 6) |||
  word64 block (8 * g + 7)

/-- The scan loop of `rvth_is_block_empty`: check `cnt` consecutive
64-byte groups starting at group index `start`, returning `false` at the
first nonzero group. -/
def scanGroups (block : List Nat) : Nat → Nat → Bool
  | _, 0 => true
  | start, cnt + 1 =>
    if group64 block start ≠ 0 then false else scanGroups block (start + 1) cnt

/-- Embedding of `rvth_is_block_empty`: process `size/8/8` groups of eight
64-bit words, OR-combining each group before a single zero comparison. -/
def rvth_is_block_empty (block : List Nat) (size : Nat) : Bool :=
  scanGroups block 0 (size / 8 / 8)

/-! ## NHCD bank-table serialization (rvth_p.c lines 121-174) -/

/-- NHCD bank-table base LBA: byte address `0x60000000` (`rvth.h`,
`RVTH_BANKTABLE_ADDRESS`) divided by the 512-byte block size. -/
def NHCD_BANKTABLE_ADDRESS_LBA : Nat := 0x300000

/-- LBA to byte offset (512-byte sectors). -/
def LBA_TO_BYTES (x : Nat) : Nat := x * 512

/-- NHCD on-disk type magic for an empty bank. -/
def NHCD_BankType_Empty : Nat := 0

/-- NHCD on-disk type magic "GC1L" (`rvth.h`). -/
def NHCD_BankType_GCN : Nat := 0x4743314C

/-- NHCD on-disk type magic "NN1L" (`rvth.h`). -/
def NHCD_BankType_Wii_SL : Nat := 0x4E4E314C

/-- NHCD on-disk type magic "NN2L" (`rvth.h`). -/
def NHCD_BankType_Wii_DL : Nat := 0x4E4E324C

/-- Big-endian 32-bit encoding of a value (`cpu_to_be32`), as four bytes. -/
def cpu_to_be32 (n : Nat) : List Nat :=
  [n / 2 ^ 24 % 256, n / 2 ^ 16 % 256, n / 2 ^ 8 % 256, n % 256]

/-- A fully populated 512-byte NHCD bank entry record: 4-byte big-endian
type magic, 14 ASCII zero bytes (0x30), the 14-byte ASCII timestamp,
big-endian `lba_start` and `lba_len`, and 472 reserved zero bytes. -/
def fullRecord (magic : Nat) (e : RvtH_BankEntry) (ts : List Nat) : List Nat :=
  cpu_to_be32 magic ++ List.replicate 14 48 ++ ts ++
  cpu_to_be32 e.lba_start ++ cpu_to_be32 e.lba_len ++ List.replicate 472 0

/-- The 512-byte record built by `rvth_write_BankEntry` (lines 121-174):
start from an all-zero record (`memset`); a deleted entry keeps it all
zero (the `goto skip_creating_bank_entry` at line 128); then the type
switch either rejects `Unknown`/`Wii_DL_Bank2` with their dedicated
errors, keeps an `Empty` record at its zero state (the type magic of
`Empty` is zero), or fills in magic, marker, timestamp and LBA fields.
`ts` is the 14-byte ASCII timestamp produced by `rvth_timestamp_create`
from the current time. -/
def nhcd_record (e : RvtH_BankEntry) (ts : List Nat) : Except Int (List Nat) :=
  if e.is_deleted then Except.ok (List.replicate 512 0)
  else
    match e.type with
    | RvtH_BankType.Unknown => Except.error RVTH_ERROR_BANK_UNKNOWN
    | RvtH_BankType.Wii_DL_Bank2 => Except.error RVTH_ERROR_BANK_DL_2
    | RvtH_BankType.Empty =>
      Except.ok (cpu_to_be32 NHCD_BankType_Empty ++ List.replicate 508 0)
    | RvtH_BankType.GCN => Except.ok (fullRecord NHCD_BankType_GCN e ts)
    | RvtH_BankType.Wii_SL => Except.ok (fullRecord NHCD_BankType_Wii_SL e ts)
    | RvtH_BankType.Wii_DL => Except.ok (fullRecord NHCD_BankType_Wii_DL e ts)

/-! ## rvth_write_BankEntry (rvth_p.c lines 94-197) -/

/-- An I/O operation issued against the backing store, for stating
frame conditions ("zero bytes of I/O"). -/
inductive IOEvent
  | seek : Nat → IOEvent
  | write : Nat → List Nat → IOEvent
deriving DecidableEq

/-- Result of `rvth_write_BankEntry`: the returned error code, the handle
state afterwards, and the I/O operations issued against the backing store. -/
structure WriteResult where
  ret : Int
  rvth : RvtH
  events : List IOEvent

/-- Embedding of `rvth_write_BankEntry` (the NULL-handle check at lines
101-103 has no counterpart: Lean values are never NULL). Checks, in
order: HDD-class handle, bank index bound, writability gate; then builds
the 512-byte record (`nhcd_record`), seeks to
`LBA_TO_BYTES(NHCD_BANKTABLE_ADDRESS_LBA + bank + 1)` and writes exactly
that record. Seek and short-write failures return `-errno` (with `errno`
defaulting to `EIO` when zero). -/
def rvth_write_BankEntry (rvth : RvtH) (bank : Nat) (ts : List Nat) : WriteResult :=
  if ¬ rvth_is_hdd rvth then ⟨RVTH_ERROR_NOT_HDD_IMAGE, rvth, []⟩
  else if rvth.bank_count ≤ bank then ⟨-ERANGE, rvth, []⟩
  else
    let mw := rvth_make_writable rvth
    if mw.1 ≠ 0 then ⟨mw.1, mw.2, []⟩
    else
      let rvth1 := mw.2
      match nhcd_record (rvth_entry_at rvth1 bank) ts with
      | Except.error e => ⟨e, rvth1, []⟩
      | Except.ok record =>
        let target := LBA_TO_BYTES (NHCD_BANKTABLE_ADDRESS_LBA + bank + 1)
        if rvth1.f_img.seekFails then
          ⟨-(if rvth1.f_img.seekErrno = 0 then EIO else (rvth1.f_img.seekErrno : Int)),
           rvth1, [IOEvent.seek target]⟩
        else
          let f2 := { rvth1.f_img with pos := target }
          if f2.writeFails then
            ⟨-(if f2.writeErrno = 0 then EIO else (f2.writeErrno : Int)),
             { rvth1 with f_img := f2 }, [IOEvent.seek target]⟩
          else
            ⟨0, { rvth1 with f_img := ref_write_bytes f2 record },
             [IOEvent.seek target, IOEvent.write target record]⟩

/-! ## Plain reader (reader_plain.h) -/

/-- Modelled from the spec: the plain Reader state (`reader_plain.c` is not
part of the given sources; spec sections 3 "Reader" and 4.5). It holds a
reference to the backing store and the LBA window. -/
structure Reader where
  file : RefFile
  lba_start : Nat
  lba_len : Nat

/-- Modelled from the spec: `reader_plain_open` (doc comment in
`reader_plain.h`: "If lba_start == 0 and lba_len == 0, the entire file
will be used"). The all-zero pair is the full-store sentinel. -/
def reader_plain_open (file : RefFile) (lba_start lba_len : Nat) : Reader :=
  ⟨file, lba_start, lba_len⟩

/-- Modelled from the spec: `size()` returns the window length, or the full
store length when the window is the full-store sentinel (spec section 4.5). -/
def Reader.size (r : Reader) : Nat :=
  if r.lba_start = 0 ∧ r.lba_len = 0 then r.file.size else r.lba_len * 512

/-- Modelled from the spec: `read_at(offset, length)` checks
`offset + length <= window_length` when the window is bounded and
translates to the absolute store offset `window_start * 512 + offset`
(spec section 4.5); out-of-window reads are rejected, never truncated.
Returns the absolute byte offset the positioned read is issued at. -/
def Reader.read_at (r : Reader) (offset len : Nat) : Except Int Nat :=
  if r.lba_start = 0 ∧ r.lba_len = 0 then Except.ok offset
  else if offset + len ≤ r.lba_len * 512 then Except.ok (r.lba_start * 512 + offset)
  else Except.error (-ERANGE)

/-! ## Helper lemmas -/

/-- Bitwise OR of naturals is zero iff both operands are. -/
theorem or_zero_iff (a b : Nat) : a ||| b = 0 ↔ a = 0 ∧ b = 0 := by
  constructor
  · intro h
    have ha : ∀ k, a.testBit k = false := by
      intro k
      have := congrArg (fun x => Nat.testBit x k) h
      simp [Nat.testBit_lor] at this
      exact this.1
    have hb : ∀ k, b.testBit k = false := by
      intro k
      have := congrArg (fun x => Nat.testBit x k) h
      simp [Nat.testBit_lor] at this
      exact this.2
    exact ⟨Nat.eq_of_testBit_eq (fun k => by simp [ha k]),
           Nat.eq_of_testBit_eq (fun k => by simp [hb k])⟩
  · rintro ⟨rfl, rfl⟩; rfl

/-- Left shift of a natural is zero iff the shifted value is. -/
theorem shiftLeft_zero_iff (a k : Nat) : a <<< k = 0 ↔ a = 0 := by
  rw [Nat.shiftLeft_eq, Nat.mul_eq_zero]
  have h : (2 : Nat) ^ k ≠ 0 := pow_ne_zero k (by omega)
  simp [h]

/-- Reading back the element just set, in range, yields the new value. -/
theorem getD_set_self : ∀ (l : List Nat) (i v : Nat), i < l.length →
    (l.set i v).getD i 0 = v
  | _ :: _, 0, _, _ => rfl
  | _ :: l, i + 1, v, h => getD_set_self l i v (by simpa using h)
  | [], _, _, h => absurd h (by simp)

/-- The writability gate leaves the bank entries untouched. -/
theorem mw_snd_entries (rvth : RvtH) :
    (rvth_make_writable rvth).2.entries = rvth.entries := by
  simp only [rvth_make_writable, ref_make_writable]
  split_ifs <;> rfl

/-- The writability gate leaves the bank entry at every index untouched. -/
theorem mw_entry_at (rvth : RvtH) (bank : Nat) :
    rvth_entry_at (rvth_make_writable rvth).2 bank = rvth_entry_at rvth bank := by
  simp [rvth_entry_at, mw_snd_entries]

/-- The writability gate writes no byte of the backing store. -/
theorem mw_snd_data (rvth : RvtH) :
    (rvth_make_writable rvth).2.f_img.data = rvth.f_img.data := by
  simp only [rvth_make_writable, ref_make_writable]
  split_ifs <;> rfl

/-- The writability gate preserves the seek-failure flag of the store. -/
theorem mw_snd_seekFails (rvth : RvtH) :
    (rvth_make_writable rvth).2.f_img.seekFails = rvth.f_img.seekFails := by
  simp only [rvth_make_writable, ref_make_writable]
  split_ifs <;> rfl

/-- The writability gate preserves the write-failure flag of the store. -/
theorem mw_snd_writeFails (rvth : RvtH) :
    (rvth_make_writable rvth).2.f_img.writeFails = rvth.f_img.writeFails := by
  simp only [rvth_make_writable, ref_make_writable]
  split_ifs <;> rfl

/-- The gate returns success, the not-a-device domain error, or the
escalation outcome. -/
theorem gate_ret_cases (rvth : RvtH) :
    (rvth_make_writable rvth).1 = 0 ∨
    (rvth_make_writable rvth).1 = RVTH_ERROR_NOT_A_DEVICE ∨
    (rvth_make_writable rvth).1 = rvth.f_img.mwResult := by
  simp only [rvth_make_writable, ref_make_writable]
  split_ifs <;> simp

/-- A seek/write errno return (`-errno`, defaulting to `EIO`) is negative. -/
theorem errno_ret_neg (n : Nat) : -(if n = 0 then EIO else (n : Int)) < 0 := by
  split_ifs with h
  · decide
  · have : (0 : Int) < (n : Int) := by
      exact_mod_cast Nat.pos_of_ne_zero h
    omega

/-- The record builder only fails with the two dedicated bank-type errors. -/
theorem nhcd_error_cases (e : RvtH_BankEntry) (ts : List Nat) (c : Int)
    (h : nhcd_record e ts = Except.error c) :
    c = RVTH_ERROR_BANK_UNKNOWN ∨ c = RVTH_ERROR_BANK_DL_2 := by
  unfold nhcd_record at h
  by_cases hd : e.is_deleted
  · simp [hd] at h
  · cases ht : e.type <;> simp [hd, ht] at h <;> simp [h]

/-- A successfully built record is exactly 512 bytes (given the 14-byte
timestamp produced by `rvth_timestamp_create`). -/
theorem nhcd_ok_length (e : RvtH_BankEntry) (ts : List Nat) (hts : ts.length = 14)
    (r : List Nat) (h : nhcd_record e ts = Except.ok r) : r.length = 512 := by
  unfold nhcd_record at h
  by_cases hd : e.is_deleted
  · simp [hd] at h
    simp [← h]
  · cases ht : e.type <;> simp [hd, ht] at h <;>
      simp [← h, fullRecord, cpu_to_be32, hts]

/-- The dedicated bank-type errors are nonzero. -/
theorem nhcd_error_ne_zero (e : RvtH_BankEntry) (ts : List Nat) (c : Int)
    (h : nhcd_record e ts = Except.error c) : c ≠ 0 := by
  rcases nhcd_error_cases e ts c h with h1 | h1 <;> simp [h1,
    RVTH_ERROR_BANK_UNKNOWN, RVTH_ERROR_BANK_DL_2]

/-- A 64-bit word of the block is zero iff its eight bytes are. -/
theorem word64_eq_zero (block : List Nat) (j : Nat) :
    word64 block j = 0 ↔ ∀ k, k < 8 → block.getD (8 * j + k) 0 = 0 := by
  unfold word64
  simp only [or_zero_iff, shiftLeft_zero_iff]
  constructor
  · intro h k hk
    obtain ⟨⟨⟨⟨⟨⟨⟨h0, h1⟩, h2⟩, h3⟩, h4⟩, h5⟩, h6⟩, h7⟩ := h
    interval_cases k
    · simpa using h0
    · exact h1
    · exact h2
    · exact h3
    · exact h4
    · exact h5
    · exact h6
    · exact h7
  · intro h
    exact ⟨⟨⟨⟨⟨⟨⟨by simpa using h 0 (by omega), h 1 (by omega)⟩, h 2 (by omega)⟩,
      h 3 (by omega)⟩, h 4 (by omega)⟩, h 5 (by omega)⟩, h 6 (by omega)⟩,
      h 7 (by omega)⟩

/-- A 64-byte group is zero iff its 64 bytes are. -/
theorem group64_eq_zero (block : List Nat) (g : Nat) :
    group64 block g = 0 ↔ ∀ k, k < 64 → block.getD (64 * g + k) 0 = 0 := by
  unfold group64
  simp only [or_zero_iff, word64_eq_zero]
  constructor
  · intro h k hk
    obtain ⟨⟨⟨⟨⟨⟨⟨h0, h1⟩, h2⟩, h3⟩, h4⟩, h5⟩, h6⟩, h7⟩ := h
    have hm : k % 8 < 8 := by omega
    have hd : k / 8 = 0 ∨ k / 8 = 1 ∨ k / 8 = 2 ∨ k / 8 = 3 ∨ k / 8 = 4 ∨
        k / 8 = 5 ∨ k / 8 = 6 ∨ k / 8 = 7 := by omega
    rcases hd with hd | hd | hd | hd | hd | hd | hd | hd
    · exact (show 8 * (8 * g) + k % 8 = 64 * g + k by omega) ▸ h0 (k % 8) hm
    · exact (show 8 * (8 * g + 1) + k % 8 = 64 * g + k by omega) ▸ h1 (k % 8) hm
    · exact (show 8 * (8 * g + 2) + k % 8 = 64 * g + k by omega) ▸ h2 (k % 8) hm
    · exact (show 8 * (8 * g + 3) + k % 8 = 64 * g + k by omega) ▸ h3 (k % 8) hm
    · exact (show 8 * (8 * g + 4) + k % 8 = 64 * g + k by omega) ▸ h4 (k % 8) hm
    · exact (show 8 * (8 * g + 5) + k % 8 = 64 * g + k by omega) ▸ h5 (k % 8) hm
    · exact (show 8 * (8 * g + 6) + k % 8 = 64 * g + k by omega) ▸ h6 (k % 8) hm
    · exact (show 8 * (8 * g + 7) + k % 8 = 64 * g + k by omega) ▸ h7 (k % 8) hm
  · intro h
    refine ⟨⟨⟨⟨⟨⟨⟨?_, ?_⟩, ?_⟩, ?_⟩, ?_⟩, ?_⟩, ?_⟩, ?_⟩ <;> intro r hr
    · exact (show 64 * g + r = 8 * (8 * g) + r by omega) ▸ h r (by omega)
    · exact (show 64 * g + (8 + r) = 8 * (8 * g + 1) + r by omega) ▸
        h (8 + r) (by omega)
    · exact (show 64 * g + (16 + r) = 8 * (8 * g + 2) + r by omega) ▸
        h (16 + r) (by omega)
    · exact (show 64 * g + (24 + r) = 8 * (8 * g + 3) + r by omega) ▸
        h (24 + r) (by omega)
    · exact (show 64 * g + (32 + r) = 8 * (8 * g + 4) + r by omega) ▸
        h (32 + r) (by omega)
    · exact (show 64 * g + (40 + r) = 8 * (8 * g + 5) + r by omega) ▸
        h (40 + r) (by omega)
    · exact (show 64 * g + (48 + r) = 8 * (8 * g + 6) + r by omega) ▸
        h (48 + r) (by omega)
    · exact (show 64 * g + (56 + r) = 8 * (8 * g + 7) + r by omega) ▸
        h (56 + r) (by omega)

/-- The scan loop succeeds iff every scanned group is zero. -/
theorem scanGroups_iff (block : List Nat) :
    ∀ cnt start, scanGroups block start cnt = true ↔
      ∀ g, g < cnt → group64 block (start + g) = 0 := by
  intro cnt
  induction cnt with
  | zero => intro start; simp [scanGroups]
  | succ n ih =>
    intro start
    simp only [scanGroups]
    by_cases h : group64 block start = 0
    · rw [if_neg (by simpa using h), ih (start + 1)]
      constructor
      · intro ha g hg
        rcases g with _ | g
        · simpa using h
        · exact (show start + 1 + g = start + (g + 1) by omega) ▸ ha g (by omega)
      · intro ha g hg
        exact (show start + (g + 1) = start + 1 + g by omega) ▸ ha (g + 1) (by omega)
    · rw [if_pos (by simpa using h)]
      constructor
      · intro hc; simp at hc
      · intro hc
        exact absurd (by simpa using hc 0 (by omega)) h

/-- The emptiness scanner returns true iff every byte below `size` is zero,
whenever `size` is a multiple of 64. -/
theorem block_empty_iff (block : List Nat) (size : Nat)
    (h64 : size % 64 = 0) :
    rvth_is_block_empty block size = true ↔
      ∀ i, i < size → block.getD i 0 = 0 := by
  rw [rvth_is_block_empty, scanGroups_iff]
  constructor
  · intro h i hi
    have hg : i / 64 < size / 8 / 8 := by omega
    have hz := (group64_eq_zero block (i / 64)).mp (by simpa using h (i / 64) hg)
    exact (show 64 * (i / 64) + i % 64 = i by omega) ▸ hz (i % 64) (by omega)
  · intro h g hg
    rw [Nat.zero_add, group64_eq_zero]
    intro k hk
    exact h (64 * g + k) (by omega)

/-- Under the preconditions (HDD handle, bank in range, gate succeeded, no
I/O fault injected) and a record builder producing the all-zero record, the
write path succeeds and writes exactly the all-zero 512-byte record at the
bank-entry slot. -/
theorem write_zero_record (rvth : RvtH) (bank : Nat) (ts : List Nat)
    (hhdd : rvth_is_hdd rvth = true) (hbank : bank < rvth.bank_count)
    (hmw : (rvth_make_writable rvth).1 = 0)
    (hseek : rvth.f_img.seekFails = false)
    (hwrite : rvth.f_img.writeFails = false)
    (hrec : nhcd_record (rvth_entry_at rvth bank) ts =
      Except.ok (List.replicate 512 0)) :
    (rvth_write_BankEntry rvth bank ts).ret = 0 ∧
    (rvth_write_BankEntry rvth bank ts).events =
      [IOEvent.seek ((NHCD_BANKTABLE_ADDRESS_LBA + bank + 1) * 512),
       IOEvent.write ((NHCD_BANKTABLE_ADDRESS_LBA + bank + 1) * 512)
         (List.replicate 512 0)] := by
  have hrec2 : nhcd_record (rvth_entry_at (rvth_make_writable rvth).2 bank) ts =
      Except.ok (List.replicate 512 0) := by rw [mw_entry_at]; exact hrec
  have hs : (rvth_make_writable rvth).2.f_img.seekFails = false := by
    rw [mw_snd_seekFails]; exact hseek
  have hw : (rvth_make_writable rvth).2.f_img.writeFails = false := by
    rw [mw_snd_writeFails]; exact hwrite
  simp [rvth_write_BankEntry, hhdd, Nat.not_le.mpr hbank, hmw, hrec2, hs, hw,
    LBA_TO_BYTES]

/-- Classification of every possible return value of the write path: under
the POSIX convention for the escalation outcome, a return is success, a
positive domain error from the closed set, or a negative POSIX code. -/
theorem write_ret_class (rvth : RvtH) (bank : Nat) (ts : List Nat)
    (hmw : rvth.f_img.mwResult ≤ 0) :
    (rvth_write_BankEntry rvth bank ts).ret = 0 ∨
    ((rvth_write_BankEntry rvth bank ts).ret ∈ rvthDomainErrors ∧
      0 < (rvth_write_BankEntry rvth bank ts).ret) ∨
    (rvth_write_BankEntry rvth bank ts).ret < 0 := by
  cases h1 : rvth_is_hdd rvth with
  | false =>
    right; left
    simp [rvth_write_BankEntry, h1, rvthDomainErrors, RVTH_ERROR_NOT_HDD_IMAGE]
  | true =>
    by_cases h2 : rvth.bank_count ≤ bank
    · right; right
      simp [rvth_write_BankEntry, h1, h2, ERANGE]
    · by_cases h3 : (rvth_make_writable rvth).1 = 0
      · rcases hrec : nhcd_record (rvth_entry_at (rvth_make_writable rvth).2 bank) ts
          with c | record
        · right; left
          have hc := nhcd_error_cases _ _ _ hrec
          have : (rvth_write_BankEntry rvth bank ts).ret = c := by
            simp [rvth_write_BankEntry, h1, h2, h3, hrec]
          rw [this]
          rcases hc with hc | hc <;>
            simp [hc, rvthDomainErrors, RVTH_ERROR_BANK_UNKNOWN, RVTH_ERROR_BANK_DL_2]
        · cases h4 : (rvth_make_writable rvth).2.f_img.seekFails with
          | true =>
            right; right
            have : (rvth_write_BankEntry rvth bank ts).ret =
                -(if (rvth_make_writable rvth).2.f_img.seekErrno = 0 then EIO
                  else ((rvth_make_writable rvth).2.f_img.seekErrno : Int)) := by
              simp [rvth_write_BankEntry, h1, h2, h3, hrec, h4]
            rw [this]
            exact errno_ret_neg _
          | false =>
            cases h5 : (rvth_make_writable rvth).2.f_img.writeFails with
            | true =>
              right; right
              have : (rvth_write_BankEntry rvth bank ts).ret =
                  -(if (rvth_make_writable rvth).2.f_img.writeErrno = 0 then EIO
                    else ((rvth_make_writable rvth).2.f_img.writeErrno : Int)) := by
                simp [rvth_write_BankEntry, h1, h2, h3, hrec, h4, h5]
              rw [this]
              exact errno_ret_neg _
            | false =>
              left
              simp [rvth_write_BankEntry, h1, h2, h3, hrec, h4, h5]
      · rcases gate_ret_cases rvth with hg | hg | hg
        · exact absurd hg h3
        · right; left
          have : (rvth_write_BankEntry rvth bank ts).ret = (rvth_make_writable rvth).1 := by
            simp [rvth_write_BankEntry, h1, h2, h3]
          rw [this, hg]
          simp [rvthDomainErrors, RVTH_ERROR_NOT_A_DEVICE]
        · right; right
          have : (rvth_write_BankEntry rvth bank ts).ret = (rvth_make_writable rvth).1 := by
            simp [rvth_write_BankEntry, h1, h2, h3]
          rw [this, hg]
          omega

/-! ## Concrete fixtures for witnesses and counterexamples -/

/-- A writable device-classified backing store with all-zero content. -/
def wFile : RefFile := ⟨fun _ => 0, 0x64000000, 0, true, true, 0, false, 0, false, 0⟩

/-- A read-only file-classified (non-device) backing store. -/
def roFile : RefFile := ⟨fun _ => 0, 0x64000000, 0, false, false, -13, false, 0, false, 0⟩

/-- A read-only device-classified backing store whose escalation succeeds. -/
def devROFile : RefFile := ⟨fun _ => 0, 0x64000000, 0, false, true, 0, false, 0, false, 0⟩

/-- Eight bank entries covering every state of interest. -/
def wEntries : List RvtH_BankEntry :=
  [⟨RvtH_BankType.GCN, false, 100, 200⟩,
   ⟨RvtH_BankType.Unknown, true, 5, 7⟩,
   ⟨RvtH_BankType.Unknown, false, 5, 7⟩,
   ⟨RvtH_BankType.Wii_DL_Bank2, false, 5, 7⟩,
   ⟨RvtH_BankType.Empty, false, 0, 0⟩,
   ⟨RvtH_BankType.Wii_SL, true, 9, 9⟩,
   ⟨RvtH_BankType.Wii_DL, false, 1, 2⟩,
   ⟨RvtH_BankType.Wii_DL_Bank2, true, 3, 4⟩]

/-- An 8-bank HDD-image handle over the writable device store. -/
def wHandle : RvtH := ⟨wFile, RvtH_ImageType.HDD_Image, 8, wEntries⟩

/-- A standalone (GCM) single-bank handle. -/
def gcmHandle : RvtH :=
  ⟨wFile, RvtH_ImageType.GCM, 1, [⟨RvtH_BankType.GCN, false, 0, 1⟩]⟩

/-- An 8-bank HDD-image handle over the read-only non-device store. -/
def roHandle : RvtH := ⟨roFile, RvtH_ImageType.HDD_Image, 8, wEntries⟩

/-- An 8-bank HDD-image handle over the read-only device store. -/
def devROHandle : RvtH := ⟨devROFile, RvtH_ImageType.HDD_Image, 8, wEntries⟩

/-- A 14-byte ASCII timestamp as produced by `rvth_timestamp_create`. -/
def ts14s : List Nat := [50, 48, 49, 56, 48, 49, 49, 50, 50, 50, 50, 55, 50, 48]

/-! ## Claim theorems -/

/-- C1: `rvth_write_BankEntry` checks its preconditions in a fixed order,
each yielding a distinct error: a non-HDD (standalone) handle fails with
`RVTH_ERROR_NOT_HDD_IMAGE`; otherwise an out-of-range bank index fails with
the range error (`-ERANGE`) before the writability gate, any serialization
logic, or any I/O runs (the handle is returned unchanged and no I/O event
is issued); only after both checks pass is the writability gate invoked,
and its error is propagated unchanged. -/
theorem claim_C1_precondition_order (rvth : RvtH) (bank : Nat) (ts : List Nat) :
    (rvth_is_hdd rvth = false →
      rvth_write_BankEntry rvth bank ts = ⟨RVTH_ERROR_NOT_HDD_IMAGE, rvth, []⟩) ∧
    (rvth_is_hdd rvth = true → rvth.bank_count ≤ bank →
      rvth_write_BankEntry rvth bank ts = ⟨-ERANGE, rvth, []⟩) ∧
    (rvth_is_hdd rvth = true → bank < rvth.bank_count →
      (rvth_make_writable rvth).1 ≠ 0 →
      rvth_write_BankEntry rvth bank ts =
        ⟨(rvth_make_writable rvth).1, (rvth_make_writable rvth).2, []⟩) ∧
    RVTH_ERROR_NOT_HDD_IMAGE ≠ -ERANGE := by
  refine ⟨?_, ?_, ?_, by decide⟩
  · intro h
    simp [rvth_write_BankEntry, h]
  · intro h1 h2
    simp [rvth_write_BankEntry, h1, h2]
  · intro h1 h2 h3
    simp [rvth_write_BankEntry, h1, Nat.not_le.mpr h2, h3]

/-- C1 witness: the three precondition failures observed on concrete
handles (standalone image, out-of-range bank, read-only file store). -/
theorem claim_C1_witness :
    rvth_write_BankEntry gcmHandle 0 ts14s =
      ⟨RVTH_ERROR_NOT_HDD_IMAGE, gcmHandle, []⟩ ∧
    rvth_write_BankEntry wHandle 8 ts14s = ⟨-ERANGE, wHandle, []⟩ ∧
    rvth_write_BankEntry roHandle 0 ts14s =
      ⟨(rvth_make_writable roHandle).1, (rvth_make_writable roHandle).2, []⟩ :=
  ⟨(claim_C1_precondition_order gcmHandle 0 ts14s).1 rfl,
   (claim_C1_precondition_order wHandle 8 ts14s).2.1 rfl (by decide),
   (claim_C1_precondition_order roHandle 0 ts14s).2.2.1 rfl (by decide) (by decide)⟩

/-- C5: `rvth_make_writable` succeeds immediately (changing nothing) when
the store already reports writable; otherwise a non-device store fails with
`RVTH_ERROR_NOT_A_DEVICE` without attempting escalation (the handle is
unchanged), and a device store has the escalation attempted with its
outcome returned unchanged. -/
theorem claim_C5_make_writable (rvth : RvtH) :
    (ref_is_writable rvth.f_img = true → rvth_make_writable rvth = (0, rvth)) ∧
    (ref_is_writable rvth.f_img = false → ref_is_device rvth.f_img = false →
      rvth_make_writable rvth = (RVTH_ERROR_NOT_A_DEVICE, rvth)) ∧
    (ref_is_writable rvth.f_img = false → ref_is_device rvth.f_img = true →
      rvth_make_writable rvth =
        ((ref_make_writable rvth.f_img).1,
         { rvth with f_img := (ref_make_writable rvth.f_img).2 })) := by
  refine ⟨?_, ?_, ?_⟩
  · intro h
    simp [rvth_make_writable, h]
  · intro h1 h2
    simp [rvth_make_writable, h1, h2]
  · intro h1 h2
    simp [rvth_make_writable, h1, h2]

/-- C5 witness: the three gate behaviours on concrete stores (already
writable, read-only file, read-only device). -/
theorem claim_C5_witness :
    rvth_make_writable wHandle = (0, wHandle) ∧
    rvth_make_writable roHandle = (RVTH_ERROR_NOT_A_DEVICE, roHandle) ∧
    rvth_make_writable devROHandle =
      ((ref_make_writable devROHandle.f_img).1,
       { devROHandle with f_img := (ref_make_writable devROHandle.f_img).2 }) :=
  ⟨(claim_C5_make_writable wHandle).1 rfl,
   (claim_C5_make_writable roHandle).2.1 rfl rfl,
   (claim_C5_make_writable devROHandle).2.2 rfl rfl⟩

/-- C6: on a handle whose backing store is a read-only non-device (file)
store, `rvth_write_BankEntry` (with valid HDD handle and bank index) fails
with the not-a-device error and performs zero bytes of I/O: no seek and no
write event is issued and the backing store is completely unchanged. -/
theorem claim_C6_readonly_file_no_io (rvth : RvtH) (bank : Nat) (ts : List Nat)
    (hhdd : rvth_is_hdd rvth = true) (hbank : bank < rvth.bank_count)
    (hwr : rvth.f_img.writable = false) (hdev : rvth.f_img.is_device = false) :
    (rvth_write_BankEntry rvth bank ts).ret = RVTH_ERROR_NOT_A_DEVICE ∧
    (rvth_write_BankEntry rvth bank ts).events = [] ∧
    (rvth_write_BankEntry rvth bank ts).rvth.f_img = rvth.f_img := by
  have hmw : rvth_make_writable rvth = (RVTH_ERROR_NOT_A_DEVICE, rvth) := by
    simp [rvth_make_writable, ref_is_writable, ref_is_device, hwr, hdev]
  have hne : RVTH_ERROR_NOT_A_DEVICE ≠ (0 : Int) := by decide
  simp [rvth_write_BankEntry, hhdd, Nat.not_le.mpr hbank, hmw, hne]

/-- C6 witness: the read-only file handle at bank 0. -/
theorem claim_C6_witness :
    (rvth_write_BankEntry roHandle 0 ts14s).ret = RVTH_ERROR_NOT_A_DEVICE ∧
    (rvth_write_BankEntry roHandle 0 ts14s).events = [] ∧
    (rvth_write_BankEntry roHandle 0 ts14s).rvth.f_img = roHandle.f_img :=
  claim_C6_readonly_file_no_io roHandle 0 ts14s rfl (by decide) rfl rfl

/-- C2 counterexample: a bank entry whose type is `Unknown` but whose
`is_deleted` flag is set (bank 1 of `wHandle`) does NOT fail: the deletion
check precedes the type check, so the call succeeds and writes the
all-zero record — refuting "always fails ... regardless of the entry's
other field values, and no bytes are written". -/
theorem claim_C2_counterexample :
    (rvth_entry_at wHandle 1).type = RvtH_BankType.Unknown ∧
    (rvth_write_BankEntry wHandle 1 ts14s).ret = 0 ∧
    (rvth_write_BankEntry wHandle 1 ts14s).ret ≠ RVTH_ERROR_BANK_UNKNOWN ∧
    (rvth_write_BankEntry wHandle 1 ts14s).events =
      [IOEvent.seek ((NHCD_BANKTABLE_ADDRESS_LBA + 1 + 1) * 512),
       IOEvent.write ((NHCD_BANKTABLE_ADDRESS_LBA + 1 + 1) * 512)
         (List.replicate 512 0)] :=
  ⟨rfl, rfl, by decide, rfl⟩

/-- C2 (amended): for every NON-DELETED bank entry whose type is `Unknown`
or `Wii_DL_Bank2`, write-back (once the handle, index and writability
preconditions hold) always fails with the dedicated error
(`RVTH_ERROR_BANK_UNKNOWN` resp. `RVTH_ERROR_BANK_DL_2`) regardless of the
entry's other field values, and no bytes are written to the backing store. -/
theorem claim_C2_reject_unknown_dl2 (rvth : RvtH) (bank : Nat) (ts : List Nat)
    (hhdd : rvth_is_hdd rvth = true) (hbank : bank < rvth.bank_count)
    (hmw : (rvth_make_writable rvth).1 = 0)
    (hdel : (rvth_entry_at rvth bank).is_deleted = false) :
    ((rvth_entry_at rvth bank).type = RvtH_BankType.Unknown →
      (rvth_write_BankEntry rvth bank ts).ret = RVTH_ERROR_BANK_UNKNOWN ∧
      (rvth_write_BankEntry rvth bank ts).events = [] ∧
      (rvth_write_BankEntry rvth bank ts).rvth.f_img.data = rvth.f_img.data) ∧
    ((rvth_entry_at rvth bank).type = RvtH_BankType.Wii_DL_Bank2 →
      (rvth_write_BankEntry rvth bank ts).ret = RVTH_ERROR_BANK_DL_2 ∧
      (rvth_write_BankEntry rvth bank ts).events = [] ∧
      (rvth_write_BankEntry rvth bank ts).rvth.f_img.data = rvth.f_img.data) := by
  constructor
  · intro ht
    have hrec : nhcd_record (rvth_entry_at (rvth_make_writable rvth).2 bank) ts =
        Except.error RVTH_ERROR_BANK_UNKNOWN := by
      rw [mw_entry_at]
      simp [nhcd_record, hdel, ht]
    simp [rvth_write_BankEntry, hhdd, Nat.not_le.mpr hbank, hmw, hrec, mw_snd_data]
  · intro ht
    have hrec : nhcd_record (rvth_entry_at (rvth_make_writable rvth).2 bank) ts =
        Except.error RVTH_ERROR_BANK_DL_2 := by
      rw [mw_entry_at]
      simp [nhcd_record, hdel, ht]
    simp [rvth_write_BankEntry, hhdd, Nat.not_le.mpr hbank, hmw, hrec, mw_snd_data]

/-- C2 witness: the live `Unknown` entry (bank 2) and the live
`Wii_DL_Bank2` entry (bank 3) of the writable handle are both rejected
with their dedicated errors and no I/O. -/
theorem claim_C2_witness :
    ((rvth_write_BankEntry wHandle 2 ts14s).ret = RVTH_ERROR_BANK_UNKNOWN ∧
     (rvth_write_BankEntry wHandle 2 ts14s).events = [] ∧
     (rvth_write_BankEntry wHandle 2 ts14s).rvth.f_img.data = wHandle.f_img.data) ∧
    ((rvth_write_BankEntry wHandle 3 ts14s).ret = RVTH_ERROR_BANK_DL_2 ∧
     (rvth_write_BankEntry wHandle 3 ts14s).events = [] ∧
     (rvth_write_BankEntry wHandle 3 ts14s).rvth.f_img.data = wHandle.f_img.data) :=
  ⟨(claim_C2_reject_unknown_dl2 wHandle 2 ts14s rfl (by decide) rfl rfl).1 rfl,
   (claim_C2_reject_unknown_dl2 wHandle 3 ts14s rfl (by decide) rfl rfl).2 rfl⟩

/-- C3: for every bank entry with `is_deleted = true`, and for every entry
of type `Empty`, a write-back that reaches the I/O stage serializes the
all-zero 512-byte record regardless of the entry's prior type, timestamp
and LBA values: the single write event carries `List.replicate 512 0`, so
no type magic, timestamp or LBA field is emitted. -/
theorem claim_C3_deleted_or_empty_zero_record (rvth : RvtH) (bank : Nat)
    (ts : List Nat)
    (hhdd : rvth_is_hdd rvth = true) (hbank : bank < rvth.bank_count)
    (hmw : (rvth_make_writable rvth).1 = 0)
    (hseek : rvth.f_img.seekFails = false)
    (hwrite : rvth.f_img.writeFails = false)
    (hstate : (rvth_entry_at rvth bank).is_deleted = true ∨
      (rvth_entry_at rvth bank).type = RvtH_BankType.Empty) :
    (rvth_write_BankEntry rvth bank ts).ret = 0 ∧
    (rvth_write_BankEntry rvth bank ts).events =
      [IOEvent.seek ((NHCD_BANKTABLE_ADDRESS_LBA + bank + 1) * 512),
       IOEvent.write ((NHCD_BANKTABLE_ADDRESS_LBA + bank + 1) * 512)
         (List.replicate 512 0)] := by
  have hrec : nhcd_record (rvth_entry_at rvth bank) ts =
      Except.ok (List.replicate 512 0) := by
    rcases hstate with hd | he
    · simp [nhcd_record, hd]
    · by_cases hd : (rvth_entry_at rvth bank).is_deleted
      · simp [nhcd_record, hd]
      · simp [nhcd_record, hd, he]
        rfl
  exact write_zero_record rvth bank ts hhdd hbank hmw hseek hwrite hrec

/-- C3 witness: the deleted `Wii_SL` entry (bank 5) and the live `Empty`
entry (bank 4) both produce the all-zero record. -/
theorem claim_C3_witness :
    ((rvth_write_BankEntry wHandle 5 ts14s).ret = 0 ∧
     (rvth_write_BankEntry wHandle 5 ts14s).events =
       [IOEvent.seek ((NHCD_BANKTABLE_ADDRESS_LBA + 5 + 1) * 512),
        IOEvent.write ((NHCD_BANKTABLE_ADDRESS_LBA + 5 + 1) * 512)
          (List.replicate 512 0)]) ∧
    ((rvth_write_BankEntry wHandle 4 ts14s).ret = 0 ∧
     (rvth_write_BankEntry wHandle 4 ts14s).events =
       [IOEvent.seek ((NHCD_BANKTABLE_ADDRESS_LBA + 4 + 1) * 512),
        IOEvent.write ((NHCD_BANKTABLE_ADDRESS_LBA + 4 + 1) * 512)
          (List.replicate 512 0)]) :=
  ⟨claim_C3_deleted_or_empty_zero_record wHandle 5 ts14s rfl (by decide) rfl rfl
     rfl (Or.inl rfl),
   claim_C3_deleted_or_empty_zero_record wHandle 4 ts14s rfl (by decide) rfl rfl
     rfl (Or.inr rfl)⟩

/-- C10: the deletion check takes precedence over the bank-type check: a
deleted entry whose type is `Unknown` or `Wii_DL_Bank2` is not rejected
with the type errors; the call succeeds and writes the all-zero 512-byte
record (given the handle, index and writability preconditions and no
injected I/O fault). -/
theorem claim_C10_deleted_precedence (rvth : RvtH) (bank : Nat) (ts : List Nat)
    (hhdd : rvth_is_hdd rvth = true) (hbank : bank < rvth.bank_count)
    (hmw : (rvth_make_writable rvth).1 = 0)
    (hseek : rvth.f_img.seekFails = false)
    (hwrite : rvth.f_img.writeFails = false)
    (hdel : (rvth_entry_at rvth bank).is_deleted = true)
    (_htype : (rvth_entry_at rvth bank).type = RvtH_BankType.Unknown ∨
      (rvth_entry_at rvth bank).type = RvtH_BankType.Wii_DL_Bank2) :
    (rvth_write_BankEntry rvth bank ts).ret = 0 ∧
    (rvth_write_BankEntry rvth bank ts).ret ≠ RVTH_ERROR_BANK_UNKNOWN ∧
    (rvth_write_BankEntry rvth bank ts).ret ≠ RVTH_ERROR_BANK_DL_2 ∧
    (rvth_write_BankEntry rvth bank ts).events =
      [IOEvent.seek ((NHCD_BANKTABLE_ADDRESS_LBA + bank + 1) * 512),
       IOEvent.write ((NHCD_BANKTABLE_ADDRESS_LBA + bank + 1) * 512)
         (List.replicate 512 0)] := by
  have hrec : nhcd_record (rvth_entry_at rvth bank) ts =
      Except.ok (List.replicate 512 0) := by
    simp [nhcd_record, hdel]
  have h := write_zero_record rvth bank ts hhdd hbank hmw hseek hwrite hrec
  refine ⟨h.1, ?_, ?_, h.2⟩
  · rw [h.1]; decide
  · rw [h.1]; decide

/-- C10 witness: the deleted `Unknown` entry (bank 1) and the deleted
`Wii_DL_Bank2` entry (bank 7) both succeed with the all-zero record. -/
theorem claim_C10_witness :
    ((rvth_write_BankEntry wHandle 1 ts14s).ret = 0 ∧
     (rvth_write_BankEntry wHandle 1 ts14s).ret ≠ RVTH_ERROR_BANK_UNKNOWN) ∧
    ((rvth_write_BankEntry wHandle 7 ts14s).ret = 0 ∧
     (rvth_write_BankEntry wHandle 7 ts14s).ret ≠ RVTH_ERROR_BANK_DL_2) := by
  have h1 := claim_C10_deleted_precedence wHandle 1 ts14s rfl (by decide) rfl rfl
    rfl rfl (Or.inl rfl)
  have h7 := claim_C10_deleted_precedence wHandle 7 ts14s rfl (by decide) rfl rfl
    rfl rfl (Or.inr rfl)
  exact ⟨⟨h1.1, h1.2.1⟩, ⟨h7.1, h7.2.2.1⟩⟩

/-- C4: a successful `rvth_write_BankEntry` writes exactly one 512-byte
record at absolute byte offset `(NHCD_BANKTABLE_ADDRESS_LBA + bank + 1) * 512`
(one seek there, one write of 512 bytes) and touches no other byte of the
backing store — in particular the table header slot and the other seven
entry slots are unchanged. -/
theorem claim_C4_exact_512_window (rvth : RvtH) (bank : Nat) (ts : List Nat)
    (hts : ts.length = 14)
    (hret : (rvth_write_BankEntry rvth bank ts).ret = 0) :
    ∃ record : List Nat, record.length = 512 ∧
      (rvth_write_BankEntry rvth bank ts).events =
        [IOEvent.seek ((NHCD_BANKTABLE_ADDRESS_LBA + bank + 1) * 512),
         IOEvent.write ((NHCD_BANKTABLE_ADDRESS_LBA + bank + 1) * 512) record] ∧
      (∀ off : Nat,
        off < (NHCD_BANKTABLE_ADDRESS_LBA + bank + 1) * 512 ∨
          (NHCD_BANKTABLE_ADDRESS_LBA + bank + 1) * 512 + 512 ≤ off →
        (rvth_write_BankEntry rvth bank ts).rvth.f_img.data off =
          rvth.f_img.data off) ∧
      (∀ off : Nat,
        (NHCD_BANKTABLE_ADDRESS_LBA + bank + 1) * 512 ≤ off →
        off < (NHCD_BANKTABLE_ADDRESS_LBA + bank + 1) * 512 + 512 →
        (rvth_write_BankEntry rvth bank ts).rvth.f_img.data off =
          record.getD (off - (NHCD_BANKTABLE_ADDRESS_LBA + bank + 1) * 512) 0) := by
  cases h1 : rvth_is_hdd rvth with
  | false =>
    exfalso
    simp [rvth_write_BankEntry, h1, RVTH_ERROR_NOT_HDD_IMAGE] at hret
  | true =>
    by_cases h2 : rvth.bank_count ≤ bank
    · exfalso
      simp [rvth_write_BankEntry, h1, h2, ERANGE] at hret
    · by_cases h3 : (rvth_make_writable rvth).1 = 0
      · rcases hrec : nhcd_record (rvth_entry_at (rvth_make_writable rvth).2 bank) ts
          with c | record
        · exfalso
          have heq : (rvth_write_BankEntry rvth bank ts).ret = c := by
            simp [rvth_write_BankEntry, h1, h2, h3, hrec]
          rw [heq] at hret
          exact nhcd_error_ne_zero _ _ _ hrec hret
        · cases h4 : (rvth_make_writable rvth).2.f_img.seekFails with
          | true =>
            exfalso
            have heq : (rvth_write_BankEntry rvth bank ts).ret =
                -(if (rvth_make_writable rvth).2.f_img.seekErrno = 0 then EIO
                  else ((rvth_make_writable rvth).2.f_img.seekErrno : Int)) := by
              simp [rvth_write_BankEntry, h1, h2, h3, hrec, h4]
            have hneg := errno_ret_neg ((rvth_make_writable rvth).2.f_img.seekErrno)
            rw [heq] at hret
            omega
          | false =>
            cases h5 : (rvth_make_writable rvth).2.f_img.writeFails with
            | true =>
              exfalso
              have heq : (rvth_write_BankEntry rvth bank ts).ret =
                  -(if (rvth_make_writable rvth).2.f_img.writeErrno = 0 then EIO
                    else ((rvth_make_writable rvth).2.f_img.writeErrno : Int)) := by
                simp [rvth_write_BankEntry, h1, h2, h3, hrec, h4, h5]
              have hneg := errno_ret_neg ((rvth_make_writable rvth).2.f_img.writeErrno)
              rw [heq] at hret
              omega
            | false =>
              have hlen := nhcd_ok_length _ _ hts _ hrec
              refine ⟨record, hlen, ?_, ?_, ?_⟩
              · simp [rvth_write_BankEntry, h1, h2, h3, hrec, h4, h5, LBA_TO_BYTES]
              · intro off hoff
                have hres : (rvth_write_BankEntry rvth bank ts).rvth.f_img.data off =
                    (ref_write_bytes
                      { (rvth_make_writable rvth).2.f_img with
                        pos := (NHCD_BANKTABLE_ADDRESS_LBA + bank + 1) * 512 }
                      record).data off := by
                  simp [rvth_write_BankEntry, h1, h2, h3, hrec, h4, h5, LBA_TO_BYTES]
                rw [hres]
                simp only [ref_write_bytes]
                rw [if_neg]
                · exact congrFun (mw_snd_data rvth) off
                · rintro ⟨ha, hb⟩
                  rw [hlen] at hb
                  omega
              · intro off ha hb
                have hres : (rvth_write_BankEntry rvth bank ts).rvth.f_img.data off =
                    (ref_write_bytes
                      { (rvth_make_writable rvth).2.f_img with
                        pos := (NHCD_BANKTABLE_ADDRESS_LBA + bank + 1) * 512 }
                      record).data off := by
                  simp [rvth_write_BankEntry, h1, h2, h3, hrec, h4, h5, LBA_TO_BYTES]
                rw [hres]
                simp only [ref_write_bytes]
                rw [if_pos ⟨ha, by rw [hlen]; omega⟩]
      · exfalso
        have heq : (rvth_write_BankEntry rvth bank ts).ret =
            (rvth_make_writable rvth).1 := by
          simp [rvth_write_BankEntry, h1, h2, h3]
        rw [heq] at hret
        exact h3 hret

/-- C4 witness: a successful write at bank 0 of the writable handle leaves
bytes outside the 512-byte entry window (offset 0, the table header)
untouched. -/
theorem claim_C4_witness :
    ts14s.length = 14 ∧
    (rvth_write_BankEntry wHandle 0 ts14s).ret = 0 ∧
    (rvth_write_BankEntry wHandle 0 ts14s).rvth.f_img.data 0 =
      wHandle.f_img.data 0 := by
  refine ⟨rfl, rfl, ?_⟩
  obtain ⟨record, hlen, hev, hout, hin⟩ :=
    claim_C4_exact_512_window wHandle 0 ts14s rfl rfl
  exact hout 0 (Or.inl (by norm_num [NHCD_BANKTABLE_ADDRESS_LBA]))

/-- C7: for a buffer whose length is a multiple of 64,
`rvth_is_block_empty` returns true iff every byte is zero; in particular
it is true on the all-zero buffer, and flipping any single bit anywhere in
an all-zero buffer (setting byte `i` to `2 ^ k`) makes it return false. -/
theorem claim_C7_block_empty (block : List Nat) (size : Nat)
    (hlen : block.length = size) (h64 : size % 64 = 0) :
    (rvth_is_block_empty block size = true ↔
      ∀ i, i < size → block.getD i 0 = 0) ∧
    (∀ i k, i < size → k < 8 →
      (∀ j, j < size → block.getD j 0 = 0) →
      rvth_is_block_empty (block.set i (2 ^ k)) size = false) := by
  refine ⟨block_empty_iff block size h64, ?_⟩
  intro i k hi hk _
  cases hb : rvth_is_block_empty (block.set i (2 ^ k)) size with
  | false => rfl
  | true =>
    exfalso
    have hall := (block_empty_iff (block.set i (2 ^ k)) size h64).mp hb
    have hz := hall i hi
    rw [getD_set_self block i (2 ^ k) (by omega)] at hz
    exact pow_ne_zero k (by omega) hz

/-- C7 witness: a 64-byte all-zero buffer scans as empty; flipping bit 1 of
byte 5 makes the scan fail. -/
theorem claim_C7_witness :
    rvth_is_block_empty (List.replicate 64 0) 64 = true ∧
    rvth_is_block_empty ((List.replicate 64 0).set 5 2) 64 = false := by
  constructor
  · exact (claim_C7_block_empty (List.replicate 64 0) 64 (by decide)
      (by decide)).1.mpr (by decide)
  · exact (claim_C7_block_empty (List.replicate 64 0) 64 (by decide)
      (by decide)).2 5 1 (by decide) (by decide) (by decide)

/-- C8: a Reader constructed with `lba_start = 0` and `lba_len = 0` spans
the entire backing store: its size equals the backing store's total size
and reads pass through with no window restriction; any other pair defines
a bounded sub-window of exactly `lba_len` sectors, whose out-of-window
reads are rejected. -/
theorem claim_C8_full_store_sentinel (f : RefFile) (s l : Nat) :
    ((reader_plain_open f 0 0).size = f.size) ∧
    (∀ offset len : Nat,
      (reader_plain_open f 0 0).read_at offset len = Except.ok offset) ∧
    (¬(s = 0 ∧ l = 0) →
      (reader_plain_open f s l).size = l * 512 ∧
      (∀ offset len : Nat, l * 512 < offset + len →
        (reader_plain_open f s l).read_at offset len = Except.error (-ERANGE))) := by
  refine ⟨?_, ?_, ?_⟩
  · simp [reader_plain_open, Reader.size]
  · intro offset len
    simp [reader_plain_open, Reader.read_at]
  · intro h
    constructor
    · simp [reader_plain_open, Reader.size, h]
    · intro offset len hlt
      simp [reader_plain_open, Reader.read_at, h, Nat.not_le.mpr hlt]

/-- C8 witness: the full-store sentinel on a concrete store, and the
boundary rejection of the 100/10 sub-window at offset 5120. -/
theorem claim_C8_witness :
    (reader_plain_open wFile 0 0).size = wFile.size ∧
    (reader_plain_open wFile 100 10).size = 5120 ∧
    (reader_plain_open wFile 100 10).read_at 5120 1 = Except.error (-ERANGE) :=
  ⟨(claim_C8_full_store_sentinel wFile 0 0).1,
   ((claim_C8_full_store_sentinel wFile 100 10).2.2 (by simp)).1,
   ((claim_C8_full_store_sentinel wFile 100 10).2.2 (by simp)).2 5120 1 (by omega)⟩

/-- C9 counterexample: on an 8-bank handle, `rvth_write_BankEntry` with
`bank = 8` returns `-ERANGE`, a negative POSIX-style code that is NOT one
of the domain error codes — refuting the claim that the
bank-index-out-of-range failure is surfaced as a domain error. -/
theorem claim_C9_counterexample :
    (rvth_write_BankEntry wHandle 8 ts14s).ret = -ERANGE ∧
    (rvth_write_BankEntry wHandle 8 ts14s).ret ∉ rvthDomainErrors ∧
    (rvth_write_BankEntry wHandle 8 ts14s).ret < 0 :=
  ⟨rfl, by decide, by decide⟩

/-- C9 (amended): every failure of `rvth_write_BankEntry` returns either
one of the closed set of domain error codes (not-HDD-image,
unknown-bank-type, dual-layer-second-bank, not-a-device), which are
positive, or a negative underlying POSIX/I/O error code, so the two
classes are distinguishable by sign; the bank-index-out-of-range failure
is surfaced as the POSIX range error `-ERANGE`, i.e. in the negative
class, distinguishable from the domain errors but not itself a domain
error code. -/
theorem claim_C9_error_classes (rvth : RvtH) (bank : Nat) (ts : List Nat)
    (hmw : rvth.f_img.mwResult ≤ 0) :
    ((rvth_write_BankEntry rvth bank ts).ret ≠ 0 →
      ((rvth_write_BankEntry rvth bank ts).ret ∈ rvthDomainErrors ∧
        0 < (rvth_write_BankEntry rvth bank ts).ret) ∨
      (rvth_write_BankEntry rvth bank ts).ret < 0) ∧
    (rvth_is_hdd rvth = true → rvth.bank_count ≤ bank →
      (rvth_write_BankEntry rvth bank ts).ret = -ERANGE ∧
      (rvth_write_BankEntry rvth bank ts).ret ∉ rvthDomainErrors ∧
      (rvth_write_BankEntry rvth bank ts).ret < 0) := by
  constructor
  · intro hne
    rcases write_ret_class rvth bank ts hmw with h | h | h
    · exact absurd h hne
    · exact Or.inl h
    · exact Or.inr h
  · intro h1 h2
    have heq : (rvth_write_BankEntry rvth bank ts).ret = -ERANGE := by
      simp [rvth_write_BankEntry, h1, h2]
    refine ⟨heq, ?_, ?_⟩
    · rw [heq]; decide
    · rw [heq]; decide

/-- C9 witness: the out-of-range failure on a concrete 8-bank handle is
`-ERANGE` and not a domain error code. -/
theorem claim_C9_witness :
    (rvth_write_BankEntry wHandle 8 ts14s).ret = -ERANGE ∧
    (rvth_write_BankEntry wHandle 8 ts14s).ret ∉ rvthDomainErrors := by
  have h := (claim_C9_error_classes wHandle 8 ts14s (by decide)).2 rfl
    (by exact Nat.le.refl)
  exact ⟨h.1, h.2.1⟩

end RvtHTool
